import Mathlib

/-!
# Verification of the SRX-Mockup compositing engine

Shallow embedding of `src/mockup_library.py` (class `MockupGenerator`) and of
the PIL primitives it calls (decode, resize, paste, point-threshold,
composite, save).  Python integers and pixel intensities are `Nat`, the
Python `//` floor division on possibly negative values is `Int.fdiv`, and
the real-valued aspect/scale arithmetic (Python floats) is idealised as `ℚ`
with `Int.floor` for Python's `int(...)` truncation (all truncated values in
the code are non-negative, where truncation and floor agree).

Filesystem state is explicit: a `Store` carries the existence predicate and
the decode maps that `Image.open(...).convert(...)` induces; PIL operations
whose numerics live outside this repository (`resize` with a resampling
filter, `save`) are a parameter `PILOps`, constrained only by the sizes they
must produce, and the resampling filter requested by the code is recorded as
a tag.
-/

namespace SRX

/-- An RGBA pixel as PIL mode "RGBA" exposes it: four 0–255 channels. -/
structure RGBA where
  r : ℕ
  g : ℕ
  b : ℕ
  a : ℕ
deriving DecidableEq, Repr

/-- The fully transparent pixel, the fill of `Image.new("RGBA", size)`. -/
def clearPx : RGBA := ⟨0, 0, 0, 0⟩

/-- An in-memory RGBA bitmap: width, height and a pixel map (only the
pixels with `x < width`, `y < height` are meaningful). -/
structure Image where
  width : ℕ
  height : ℕ
  pixel : ℕ → ℕ → RGBA

/-- A single-channel (mode "L") bitmap: intensities 0–255. -/
structure GrayImage where
  width : ℕ
  height : ℕ
  pixel : ℕ → ℕ → ℕ

/-- The filesystem and decoder state seen by one generation call:
which paths exist, and what `Image.open(p).convert("RGBA")` respectively
`.convert("L")` yield (`none` = missing or undecodable file, the
`UnidentifiedImageError` branch). -/
structure Store where
  found : String → Bool
  decodeRGBA : String → Option Image
  decodeL : String → Option GrayImage

/-- The four directories a `MockupGenerator` instance is configured with. -/
structure Dirs where
  fabric_dir : String
  mockup_dir : String
  mask_dir : String
  output_dir : String

/-- Embedding of `os.path.join(directory, filename)` for the POSIX paths the program uses. -/
def joinPath (d f : String) : String := d ++ "/" ++ f

/-- The resampling filters of `PIL.Image.Resampling`; the code only ever
requests `LANCZOS`. -/
inductive Resampling where
  | lanczos
  | nearest
deriving DecidableEq

/-- The PIL primitives whose pixel numerics are external to this repository.
`resize`/`resizeL` must return a bitmap of the requested size; `save`
models `Image.save` on the explicit filesystem state (`none` = write
failure). -/
structure PILOps where
  resize : Resampling → Image → ℕ → ℕ → Image
  resizeL : Resampling → GrayImage → ℕ → ℕ → GrayImage
  save : Store → String → Image → Option Store
  resize_width : ∀ f img w h, (resize f img w h).width = w
  resize_height : ∀ f img w h, (resize f img w h).height = h
  resizeL_width : ∀ f img w h, (resizeL f img w h).width = w
  resizeL_height : ∀ f img w h, (resizeL f img w h).height = h

/-- Source `find_file` (mockup_library.py lines 37–47): try the extensions in
order, return the first path that exists, `None` when none does. -/
def find_file (store : Store) (directory ref_code : String) :
    List String → Option String
  | [] => none
  | ext :: rest =>
    let path := joinPath directory (ref_code ++ ext)
    if store.found path then some path else find_file store directory ref_code rest

/-- The extension list used for fabric and mockup lookups (line 58). -/
def commonExts : List String := [".jpg", ".png", ".jpeg", ".webp"]

/-- The extension list used for the mask lookup (line 78). -/
def maskExts : List String := [".png", ".jpg", ".jpeg"]

/-- The thresholding lambda of line 85: `255 if x > 10 else 0`. -/
def thresholdPx (x : ℕ) : ℕ := if x > 10 then 255 else 0

/-- Line 85, `mask_img_raw.point(lambda x: 255 if x > 10 else 0, mode='1').convert('L')`:
(line 85): pointwise threshold of the decoded mask; the `'1'`→`'L'` round
trip keeps the values 0 and 255. -/
def thresholdMask (m : GrayImage) : GrayImage :=
  { width := m.width, height := m.height
    pixel := fun x y => thresholdPx (m.pixel x y) }

/-- The error taxonomy of the distinct failure sites of `_generate_core` and
`create_mockup` (each is a `return None` in the Python). -/
inductive GenError where
  | fabricNotFound
  | mockupNotFound
  | maskNotFound
  | decodeFailed
  | invalidDimension
deriving DecidableEq, Repr

/-- Lines 105–112: the "fit" ("contain") size.  The aspect quotients
`mockup_width / mockup_height` and `fabric_width / fabric_height` are real
divisions, idealised as `ℚ`; `int(...)` is floor (both operands are
non-negative here). -/
def fitSize (mockupW mockupH fabricW fabricH : ℕ) : ℕ × ℕ :=
  let mockupAspect : ℚ := (mockupW : ℚ) / (mockupH : ℚ)
  let fabricAspect : ℚ := (fabricW : ℚ) / (fabricH : ℚ)
  if fabricAspect > mockupAspect then
    let fitW := mockupW
    (fitW, (⌊(fitW : ℚ) / fabricAspect⌋).toNat)
  else
    let fitH := mockupH
    ((⌊(fitH : ℚ) * fabricAspect⌋).toNat, fitH)

/-- Lines 119–121: a non-positive scaling factor is replaced by `1.0` with a
warning. -/
def normalizeScale (s : ℚ) : ℚ := if s ≤ 0 then 1 else s

/-- Lines 98–133, the dimension pipeline of the Fit-and-Center placement:
zero-height guard, fit size, scale normalisation, zoomed size, positivity
check of the zoomed size.  Returns the final resize target. -/
def fitCenterDims (mockupW mockupH fabricW fabricH : ℕ) (scaling_factor : ℚ) :
    Except GenError (ℕ × ℕ) :=
  if mockupH = 0 ∨ fabricH = 0 then .error .invalidDimension
  else
    let fit := fitSize mockupW mockupH fabricW fabricH
    let s := normalizeScale scaling_factor
    let scaledW : ℤ := ⌊(fit.1 : ℚ) * s⌋
    let scaledH : ℤ := ⌊(fit.2 : ℚ) * s⌋
    if 0 < scaledW ∧ 0 < scaledH then .ok (scaledW.toNat, scaledH.toNat)
    else .error .invalidDimension

/-- Embedding of `Image.new("RGBA", (w, h))` (line 137): a fully transparent canvas. -/
def newCanvas (w h : ℕ) : Image := ⟨w, h, fun _ _ => clearPx⟩

/-- Embedding of `base.paste(img, (px, py))` for a 2-tuple box (line 146): the pasted
image replaces the base inside the translated rectangle clipped to the base
bounds (negative offsets crop; no error is possible). -/
def pasteClip (base img : Image) (px py : ℤ) : Image :=
  { width := base.width, height := base.height
    pixel := fun x y =>
      if x < base.width ∧ y < base.height ∧
          px ≤ (x : ℤ) ∧ (x : ℤ) < px + img.width ∧
          py ≤ (y : ℤ) ∧ (y : ℤ) < py + img.height then
        img.pixel ((x : ℤ) - px).toNat ((y : ℤ) - py).toNat
      else base.pixel x y }

/-- Lines 140–141: the centering offsets, Python `//` on possibly negative
integers, i.e. floor division. -/
def pasteOffsets (mockupW mockupH scaledW scaledH : ℕ) : ℤ × ℤ :=
  (((mockupW : ℤ) - (scaledW : ℤ)).fdiv 2, ((mockupH : ℤ) - (scaledH : ℤ)).fdiv 2)

/-- Lines 98–146 as one step: the canvas-sized fabric layer of the
Fit-and-Center placement (dimension checks, LANCZOS resize of the fabric to
the zoomed size, centered clipped paste onto a transparent canvas). -/
def fitCenterLayer (ops : PILOps) (fabric : Image) (mockupW mockupH : ℕ)
    (scaling_factor : ℚ) : Except GenError Image :=
  match fitCenterDims mockupW mockupH fabric.width fabric.height scaling_factor with
  | .error e => .error e
  | .ok (scaledW, scaledH) =>
    let resized := ops.resize .lanczos fabric scaledW scaledH
    let off := pasteOffsets mockupW mockupH scaledW scaledH
    .ok (pasteClip (newCanvas mockupW mockupH) resized off.1 off.2)

/-- Lines 149–151: resize the (thresholded) mask to the mockup size with
LANCZOS exactly when the two sizes differ. -/
def finalMask (ops : PILOps) (mask : GrayImage) (mockupW mockupH : ℕ) : GrayImage :=
  if (mockupW, mockupH) ≠ (mask.width, mask.height) then
    ops.resizeL .lanczos mask mockupW mockupH
  else mask

/-- One channel of `Image.composite(im1, im2, mask)` with an "L" mask:
the rounded convex combination `(c1·m + c2·(255−m)) / 255`. -/
def blendChannel (c1 c2 m : ℕ) : ℕ := (c1 * m + c2 * (255 - m) + 127) / 255

/-- One pixel of `Image.composite`: every channel, the alpha channel
included, is blended with the mask intensity as the weight. -/
def blendPx (p1 p2 : RGBA) (m : ℕ) : RGBA :=
  ⟨blendChannel p1.r p2.r m, blendChannel p1.g p2.g m,
   blendChannel p1.b p2.b m, blendChannel p1.a p2.a m⟩

/-- Embedding of `Image.composite(fabric_layer, mockup_img, mask_img)` (line 156): a
total pointwise blend; mask 255 selects the first image, 0 the second. -/
def compositeImg (im1 im2 : Image) (mask : GrayImage) : Image :=
  { width := im1.width, height := im1.height
    pixel := fun x y => blendPx (im1.pixel x y) (im2.pixel x y) (mask.pixel x y) }

/-- Source `_generate_core` (lines 49–158) with the failure sites tagged: find and
decode the fabric, the mockup and the mask, threshold the mask, build the
Fit-and-Center fabric layer, size-match the mask, composite. -/
def generate_core (ops : PILOps) (store : Store) (cfg : Dirs)
    (fabric_ref mockup_name : String) (scaling_factor : ℚ) :
    Except GenError Image :=
  match find_file store cfg.fabric_dir fabric_ref commonExts with
  | none => .error .fabricNotFound
  | some fabric_path =>
  match store.decodeRGBA fabric_path with
  | none => .error .decodeFailed
  | some fabric_img =>
  match find_file store cfg.mockup_dir mockup_name commonExts with
  | none => .error .mockupNotFound
  | some mockup_path =>
  match store.decodeRGBA mockup_path with
  | none => .error .decodeFailed
  | some mockup_img =>
  match find_file store cfg.mask_dir (mockup_name ++ "_mask") maskExts with
  | none => .error .maskNotFound
  | some mask_path =>
  match store.decodeL mask_path with
  | none => .error .decodeFailed
  | some mask_raw =>
  let mask_img := thresholdMask mask_raw
  match fitCenterLayer ops fabric_img mockup_img.width mockup_img.height scaling_factor with
  | .error e => .error e
  | .ok fabric_layer =>
    .ok (compositeImg fabric_layer mockup_img
          (finalMask ops mask_img mockup_img.width mockup_img.height))

/-- Line 167–168: the deterministic output path of the save sink. -/
def outPath (cfg : Dirs) (fabric_ref mockup_name : String) : String :=
  joinPath cfg.output_dir ("SRX Mockup_" ++ mockup_name ++ "_" ++ fabric_ref ++ ".png")

/-- Source `create_mockup` (lines 160–176): run the core; on any core failure
return `None` with the filesystem untouched; otherwise save to the
deterministic path, returning `None` on a save failure. -/
def create_mockup (ops : PILOps) (store : Store) (cfg : Dirs)
    (fabric_ref mockup_name : String) (scaling_factor : ℚ) :
    Option String × Store :=
  match generate_core ops store cfg fabric_ref mockup_name scaling_factor with
  | .error _ => (none, store)
  | .ok final_img =>
    match ops.save store (outPath cfg fabric_ref mockup_name) final_img with
    | none => (none, store)
    | some store' => (some (outPath cfg fabric_ref mockup_name), store')

/-- Source `generate_mockup_image_object` (lines 178–185): run the core and hand
back the in-memory image, `None` on any core failure. -/
def generate_mockup_image_object (ops : PILOps) (store : Store) (cfg : Dirs)
    (fabric_ref mockup_name : String) (scaling_factor : ℚ) : Option Image :=
  match generate_core ops store cfg fabric_ref mockup_name scaling_factor with
  | .error _ => none
  | .ok final_img => some final_img

/-- Modelled from the spec: the Scale-and-Tile `_generate_core` variant
(§4.4 of the spec) is a second code path of this repository that is not
under `src/`.  Per the spec: a scale `≠ 1` and `> 0` resizes the fabric to
the floored scaled size unless that size is degenerate (then the native
size is kept with a warning); a zero tile step is `InvalidDimensionError`;
otherwise every canvas pixel `(x, y)` inside bounds carries the scaled
fabric's pixel at `(x mod w, y mod h)` (§8 tiling invariant). -/
def scaleTileLayer (ops : PILOps) (fabric : Image) (mockupW mockupH : ℕ)
    (scaling_factor : ℚ) : Except GenError Image :=
  let dims :=
    if scaling_factor ≠ 1 ∧ 0 < scaling_factor then
      let sw : ℤ := ⌊(fabric.width : ℚ) * scaling_factor⌋
      let sh : ℤ := ⌊(fabric.height : ℚ) * scaling_factor⌋
      if 0 < sw ∧ 0 < sh then (sw.toNat, sh.toNat)
      else (fabric.width, fabric.height)
    else (fabric.width, fabric.height)
  let tile :=
    if dims = (fabric.width, fabric.height) then fabric
    else ops.resize .lanczos fabric dims.1 dims.2
  if dims.1 = 0 ∨ dims.2 = 0 then .error .invalidDimension
  else
    .ok { width := mockupW, height := mockupH
          pixel := fun x y =>
            if x < mockupW ∧ y < mockupH then tile.pixel (x % dims.1) (y % dims.2)
            else clearPx }

/-! ## Concrete instances used by the witnesses -/

/-- Nearest-neighbour resampling: a concrete size-correct instantiation of
the abstract resize primitive. -/
def nnResize (img : Image) (w h : ℕ) : Image :=
  ⟨w, h, fun x y => img.pixel (x * img.width / w) (y * img.height / h)⟩

/-- Nearest-neighbour resampling on a single-channel bitmap. -/
def nnResizeL (img : GrayImage) (w h : ℕ) : GrayImage :=
  ⟨w, h, fun x y => img.pixel (x * img.width / w) (y * img.height / h)⟩

/-- A concrete `PILOps`: nearest-neighbour resampling and a save that
records the written path as existing. -/
def concreteOps : PILOps where
  resize := fun _ img w h => nnResize img w h
  resizeL := fun _ img w h => nnResizeL img w h
  save := fun s p _ => some { s with found := fun q => q == p || s.found q }
  resize_width := fun _ _ _ _ => rfl
  resize_height := fun _ _ _ _ => rfl
  resizeL_width := fun _ _ _ _ => rfl
  resizeL_height := fun _ _ _ _ => rfl

/-! ## Concrete fixtures for the witnesses -/

/-- A 1×1 all-red fabric. -/
def wFabric : Image := ⟨1, 1, fun _ _ => ⟨255, 0, 0, 255⟩⟩

/-- A degenerate mockup photo of height 0. -/
def wMockup0 : Image := ⟨1, 0, fun _ _ => clearPx⟩

/-- A 1×1 all-white raw mask. -/
def wMask : GrayImage := ⟨1, 1, fun _ _ => 255⟩

/-- A store holding a fabric, a zero-height mockup and a mask. -/
def wStore : Store where
  found := fun p => p == "fab/f.jpg" || p == "mock/g.jpg" || p == "mask/g_mask.png"
  decodeRGBA := fun p =>
    if p == "fab/f.jpg" then some wFabric
    else if p == "mock/g.jpg" then some wMockup0 else none
  decodeL := fun p => if p == "mask/g_mask.png" then some wMask else none

/-- The directory configuration used by the witness stores. -/
def wDirs : Dirs := ⟨"fab", "mock", "mask", "out"⟩

/-- A store with no files at all. -/
def emptyStore : Store := ⟨fun _ => false, fun _ => none, fun _ => none⟩

/-- A store holding only the fabric file. -/
def fabricOnlyStore : Store where
  found := fun p => p == "fab/f.jpg"
  decodeRGBA := fun p => if p == "fab/f.jpg" then some wFabric else none
  decodeL := fun _ => none

/-- A store holding a decodable fabric and mockup but no mask file. -/
def noMaskStore : Store where
  found := fun p => p == "fab/f.jpg" || p == "mock/g.jpg"
  decodeRGBA := fun p =>
    if p == "fab/f.jpg" then some wFabric
    else if p == "mock/g.jpg" then some wFabric else none
  decodeL := fun _ => none

/-- A 100×100 transparent fabric used to exercise a zoomed-in paste. -/
def wFabric100 : Image := ⟨100, 100, fun _ _ => clearPx⟩

/-- A 1×1 all-blue garment photo. -/
def wGarment : Image := ⟨1, 1, fun _ _ => ⟨0, 0, 255, 255⟩⟩

/-- A 2×1 all-blue garment photo (wider than the 1×1 fabric). -/
def c7Garment : Image := ⟨2, 1, fun _ _ => ⟨0, 0, 255, 255⟩⟩

/-- A 2×1 all-white raw mask matching the 2×1 garment. -/
def c7MaskRaw : GrayImage := ⟨2, 1, fun _ _ => 255⟩

/-- A store holding the 1×1 fabric, the 2×1 garment and its mask. -/
def c7Store : Store where
  found := fun p => p == "fab/f.jpg" || p == "mock/g.jpg" || p == "mask/g_mask.png"
  decodeRGBA := fun p =>
    if p == "fab/f.jpg" then some wFabric
    else if p == "mock/g.jpg" then some c7Garment else none
  decodeL := fun p => if p == "mask/g_mask.png" then some c7MaskRaw else none

/-- The fit-and-center fabric layer the core builds for the `c7` assets. -/
def c7Layer : Image :=
  pasteClip (newCanvas 2 1) (concreteOps.resize .lanczos wFabric 1 1)
    (pasteOffsets 2 1 1 1).1 (pasteOffsets 2 1 1 1).2

/-- The composite the core produces for the `c7` assets. -/
def c7Img : Image :=
  compositeImg c7Layer c7Garment (finalMask concreteOps (thresholdMask c7MaskRaw) 2 1)

/-! ## Helper lemmas -/

/-- Python's `// 2` on an integer is the floor of the real quotient. -/
theorem fdiv_two_eq_floor (a : ℤ) : a.fdiv 2 = ⌊(a : ℚ) / 2⌋ := by
  rw [Int.fdiv_eq_ediv _ (by norm_num)]
  have h := Rat.floor_intCast_div_natCast a 2
  simpa using h.symm

theorem blendChannel_255 (c1 c2 : ℕ) : blendChannel c1 c2 255 = c1 := by
  unfold blendChannel
  rw [Nat.sub_self, Nat.mul_zero, Nat.add_zero, Nat.mul_comm, Nat.mul_add_div (by norm_num)]
  rfl

theorem blendChannel_0 (c1 c2 : ℕ) : blendChannel c1 c2 0 = c2 := by
  unfold blendChannel
  rw [Nat.mul_zero, Nat.zero_add, Nat.sub_zero, Nat.mul_comm, Nat.mul_add_div (by norm_num)]
  rfl

theorem blendPx_255 (p1 p2 : RGBA) : blendPx p1 p2 255 = p1 := by
  cases p1; simp [blendPx, blendChannel_255]

theorem blendPx_0 (p1 p2 : RGBA) : blendPx p1 p2 0 = p2 := by
  cases p2; simp [blendPx, blendChannel_0]

theorem normalizeScale_of_nonpos {s : ℚ} (h : s ≤ 0) :
    normalizeScale s = normalizeScale 1 := by
  simp [normalizeScale, h]

theorem fitCenterDims_scale_congr (W H fw fh : ℕ) {s s' : ℚ}
    (h : normalizeScale s = normalizeScale s') :
    fitCenterDims W H fw fh s = fitCenterDims W H fw fh s' := by
  simp only [fitCenterDims, h]

/-- The dimension stage errs exactly on a zero source height or a
non-positive zoomed size (and the error is always `invalidDimension`). -/
theorem fitCenterDims_error_iff (W H fw fh : ℕ) (s : ℚ) :
    fitCenterDims W H fw fh s = .error .invalidDimension ↔
      H = 0 ∨ fh = 0 ∨
      ⌊((fitSize W H fw fh).1 : ℚ) * normalizeScale s⌋ ≤ 0 ∨
      ⌊((fitSize W H fw fh).2 : ℚ) * normalizeScale s⌋ ≤ 0 := by
  unfold fitCenterDims
  by_cases h0 : H = 0 ∨ fh = 0
  · simp only [h0, if_true]
    simp only [true_iff]
    tauto
  · simp only [h0, if_false]
    push_neg at h0
    by_cases hpos : 0 < ⌊((fitSize W H fw fh).1 : ℚ) * normalizeScale s⌋ ∧
        0 < ⌊((fitSize W H fw fh).2 : ℚ) * normalizeScale s⌋
    · simp only [hpos, if_true]
      simp [h0.1, h0.2, not_or, not_le, hpos.1, hpos.2]
    · simp only [hpos, if_false]
      rw [not_and_or, not_lt, not_lt] at hpos
      simp [h0.1, h0.2]
      tauto

/-- The fit-and-center layer errs iff its dimension stage errs. -/
theorem fitCenterLayer_error_iff (ops : PILOps) (fabric : Image)
    (W H : ℕ) (s : ℚ) (e : GenError) :
    fitCenterLayer ops fabric W H s = .error e ↔
      fitCenterDims W H fabric.width fabric.height s = .error e := by
  unfold fitCenterLayer
  cases h : fitCenterDims W H fabric.width fabric.height s with
  | error e' => simp
  | ok d => cases d; simp

theorem find_file_some_iff (store : Store) (d r : String) :
    ∀ (exts : List String) (p : String),
      find_file store d r exts = some p ↔
        ∃ i, ∃ h : i < exts.length,
          p = joinPath d (r ++ exts.get ⟨i, h⟩) ∧ store.found p = true ∧
          ∀ e ∈ exts.take i, store.found (joinPath d (r ++ e)) = false := by
  intro exts
  induction exts with
  | nil => intro p; simp [find_file]
  | cons ext rest ih =>
    intro p
    simp only [find_file]
    by_cases hfound : store.found (joinPath d (r ++ ext)) = true
    · rw [if_pos hfound]
      constructor
      · intro h
        injection h with h
        exact ⟨0, by simp, by simp [h], h ▸ hfound, by simp⟩
      · rintro ⟨i, hi, hp, hpf, hprev⟩
        cases i with
        | zero => simp only [List.get] at hp; rw [hp]
        | succ j =>
          exact absurd (hprev ext (by simp)) (by simp [hfound])
    · rw [if_neg hfound]
      rw [ih p]
      constructor
      · rintro ⟨i, hi, hp, hpf, hprev⟩
        refine ⟨i + 1, by simpa using hi, by simpa using hp, hpf, ?_⟩
        intro e he
        rcases (by simpa using he : e = ext ∨ e ∈ rest.take i) with rfl | he'
        · simpa using hfound
        · exact hprev e he'
      · rintro ⟨i, hi, hp, hpf, hprev⟩
        cases i with
        | zero =>
          exact absurd (hp ▸ hpf) (by simpa only [List.get] using hfound)
        | succ j =>
          refine ⟨j, by simpa using hi, by simpa using hp, hpf, ?_⟩
          intro e he
          exact hprev e (by simp [he])

theorem find_file_none_iff (store : Store) (d r : String) :
    ∀ exts : List String,
      find_file store d r exts = none ↔
        ∀ e ∈ exts, store.found (joinPath d (r ++ e)) = false := by
  intro exts
  induction exts with
  | nil => simp [find_file]
  | cons ext rest ih =>
    simp only [find_file]
    by_cases hfound : store.found (joinPath d (r ++ ext)) = true
    · simp [hfound]
    · rw [if_neg hfound, ih]
      simp only [Bool.not_eq_true] at hfound
      simp [hfound]

theorem find_file_found_congr (s₁ s₂ : Store) (h : s₁.found = s₂.found)
    (d r : String) : ∀ exts : List String,
      find_file s₁ d r exts = find_file s₂ d r exts := by
  intro exts
  induction exts with
  | nil => rfl
  | cons ext rest ih => simp only [find_file, h, ih]

/-- A successful run of the core decomposes into its pipeline stages: found
and decoded assets, a fit-and-center fabric layer, and a composite of that
layer with the mockup under the size-matched thresholded mask. -/
theorem generate_core_ok (ops : PILOps) (store : Store) (cfg : Dirs)
    (fr mn : String) (s : ℚ) (img : Image)
    (h : generate_core ops store cfg fr mn s = .ok img) :
    ∃ fp fabric_img mp mockup_img kp mask_raw fl,
      find_file store cfg.fabric_dir fr commonExts = some fp ∧
      store.decodeRGBA fp = some fabric_img ∧
      find_file store cfg.mockup_dir mn commonExts = some mp ∧
      store.decodeRGBA mp = some mockup_img ∧
      find_file store cfg.mask_dir (mn ++ "_mask") maskExts = some kp ∧
      store.decodeL kp = some mask_raw ∧
      fitCenterLayer ops fabric_img mockup_img.width mockup_img.height s = .ok fl ∧
      img = compositeImg fl mockup_img
        (finalMask ops (thresholdMask mask_raw) mockup_img.width mockup_img.height) := by
  cases h1 : find_file store cfg.fabric_dir fr commonExts with
  | none => simp [generate_core, h1] at h
  | some fp =>
  cases h2 : store.decodeRGBA fp with
  | none => simp [generate_core, h1, h2] at h
  | some fabric_img =>
  cases h3 : find_file store cfg.mockup_dir mn commonExts with
  | none => simp [generate_core, h1, h2, h3] at h
  | some mp =>
  cases h4 : store.decodeRGBA mp with
  | none => simp [generate_core, h1, h2, h3, h4] at h
  | some mockup_img =>
  cases h5 : find_file store cfg.mask_dir (mn ++ "_mask") maskExts with
  | none => simp [generate_core, h1, h2, h3, h4, h5] at h
  | some kp =>
  cases h6 : store.decodeL kp with
  | none => simp [generate_core, h1, h2, h3, h4, h5, h6] at h
  | some mask_raw =>
  cases h7 : fitCenterLayer ops fabric_img mockup_img.width mockup_img.height s with
  | error e => simp [generate_core, h1, h2, h3, h4, h5, h6, h7] at h
  | ok fl =>
  simp only [generate_core, h1, h2, h3, h4, h5, h6, h7, Except.ok.injEq] at h
  exact ⟨fp, fabric_img, mp, mockup_img, kp, mask_raw, fl,
    rfl, h2, rfl, h4, rfl, h6, h7, h.symm⟩

/-- A missing mask file makes the core fail (with whichever error its
earlier stages hit, `maskNotFound` when they all pass). -/
theorem generate_core_mask_missing (ops : PILOps) (store : Store) (cfg : Dirs)
    (fr mn : String) (s : ℚ)
    (h : find_file store cfg.mask_dir (mn ++ "_mask") maskExts = none) :
    ∃ e, generate_core ops store cfg fr mn s = .error e := by
  cases h1 : find_file store cfg.fabric_dir fr commonExts with
  | none => exact ⟨.fabricNotFound, by simp only [generate_core, h1]⟩
  | some fp =>
  cases h2 : store.decodeRGBA fp with
  | none => exact ⟨.decodeFailed, by simp only [generate_core, h1, h2]⟩
  | some fabric_img =>
  cases h3 : find_file store cfg.mockup_dir mn commonExts with
  | none => exact ⟨.mockupNotFound, by simp only [generate_core, h1, h2, h3]⟩
  | some mp =>
  cases h4 : store.decodeRGBA mp with
  | none => exact ⟨.decodeFailed, by simp only [generate_core, h1, h2, h3, h4]⟩
  | some mockup_img =>
  exact ⟨.maskNotFound, by simp only [generate_core, h1, h2, h3, h4, h]⟩

/-- Zooming a 100×100 fabric on a 100×100 canvas by 2 keeps it `ok` with a
200×200 resize target. -/
theorem fcd_zoom : fitCenterDims 100 100 100 100 2 = .ok (200, 200) := by
  have h1 : fitSize 100 100 100 100 = (100, 100) := by
    unfold fitSize
    norm_num
    decide
  simp only [fitCenterDims, h1, normalizeScale]
  norm_num
  decide

/-! ## Claim theorems -/

/-- C1: In Fit-and-Center placement, for every garment canvas and fabric
with positive heights, if `fabricW/fabricH > canvasW/canvasH` then
`fitW = canvasW` and `fitH = floor(fitW / fabricRatio)`, otherwise
(equal ratios included) `fitH = canvasH` and
`fitW = floor(fitH * fabricRatio)`; for garment 800×600 and fabric 400×400
the fit size is 600×600. -/
theorem fit_and_center_fit_size (W H fw fh : ℕ) (hH : 0 < H) (hfh : 0 < fh) :
    (if ((fw : ℚ) / (fh : ℚ)) > ((W : ℚ) / (H : ℚ)) then
        fitSize W H fw fh = (W, (⌊(W : ℚ) / ((fw : ℚ) / (fh : ℚ))⌋).toNat)
      else
        fitSize W H fw fh = ((⌊(H : ℚ) * ((fw : ℚ) / (fh : ℚ))⌋).toNat, H))
    ∧ fitSize 800 600 400 400 = (600, 600) := by
  constructor
  · by_cases hc : ((fw : ℚ) / (fh : ℚ)) > ((W : ℚ) / (H : ℚ)) <;>
      simp [fitSize, hc]
  · unfold fitSize
    norm_num
    decide

theorem fit_and_center_fit_size_witness :
    0 < 600 ∧ 0 < 400 ∧ fitSize 800 600 400 400 = (600, 600) :=
  ⟨by decide, by decide,
    (fit_and_center_fit_size 800 600 400 400 (by decide) (by decide)).2⟩

/-- C2: In Fit-and-Center, for every valid scale > 0 whose dimension stage
succeeds with zoomed size `(sw, sh)`, the fabric layer is the clipped paste
of the resized fabric at top-left offsets `floor((W - sw)/2)` and
`floor((H - sh)/2)` onto a transparent canvas; inside the canvas the paste
keeps the resized fabric only on the translated rectangle and leaves the
rest transparent (clipping, never an error, also for negative offsets). -/
theorem fit_and_center_centering (ops : PILOps) (fabric : Image) (W H : ℕ)
    (s : ℚ) (hs : 0 < s) (sw sh : ℕ)
    (hdims : fitCenterDims W H fabric.width fabric.height s = .ok (sw, sh)) :
    fitCenterLayer ops fabric W H s =
      .ok (pasteClip (newCanvas W H) (ops.resize .lanczos fabric sw sh)
        ⌊((((W : ℤ) - ((sw : ℕ) : ℤ)) : ℚ)) / 2⌋
        ⌊((((H : ℤ) - ((sh : ℕ) : ℤ)) : ℚ)) / 2⌋)
    ∧ (∀ x y : ℕ, x < W → y < H →
        (pasteClip (newCanvas W H) (ops.resize .lanczos fabric sw sh)
          (pasteOffsets W H sw sh).1 (pasteOffsets W H sw sh).2).pixel x y =
          (if (pasteOffsets W H sw sh).1 ≤ (x : ℤ) ∧
              (x : ℤ) < (pasteOffsets W H sw sh).1 + (sw : ℤ) ∧
              (pasteOffsets W H sw sh).2 ≤ (y : ℤ) ∧
              (y : ℤ) < (pasteOffsets W H sw sh).2 + (sh : ℤ) then
            (ops.resize .lanczos fabric sw sh).pixel
              ((x : ℤ) - (pasteOffsets W H sw sh).1).toNat
              ((y : ℤ) - (pasteOffsets W H sw sh).2).toNat
          else clearPx)) := by
  constructor
  · simp only [fitCenterLayer, hdims]
    simp only [pasteOffsets, fdiv_two_eq_floor]
    push_cast
    rfl
  · intro x y hx hy
    simp only [pasteClip, newCanvas, ops.resize_width, ops.resize_height]
    simp [hx, hy]

theorem fit_and_center_centering_witness :
    (0 : ℚ) < 2 ∧
    fitCenterLayer concreteOps wFabric100 100 100 2 =
      .ok (pasteClip (newCanvas 100 100)
        (concreteOps.resize .lanczos wFabric100 200 200)
        ⌊(((((100 : ℕ) : ℤ) - (((200 : ℕ)) : ℤ)) : ℚ)) / 2⌋
        ⌊(((((100 : ℕ) : ℤ) - (((200 : ℕ)) : ℤ)) : ℚ)) / 2⌋) :=
  ⟨by decide,
    (fit_and_center_centering concreteOps wFabric100 100 100 2 (by decide)
      200 200 fcd_zoom).1⟩

/-- C3: mask preparation thresholds the decoded single-channel mask:
every input intensity `i` maps to 255 if `i > 10` and to 0 otherwise, so
right after thresholding every pixel is 0 or 255 (sizes unchanged). -/
theorem mask_binarization (m : GrayImage) (x y : ℕ) :
    (thresholdMask m).pixel x y = (if m.pixel x y > 10 then 255 else 0)
    ∧ ((thresholdMask m).pixel x y = 0 ∨ (thresholdMask m).pixel x y = 255)
    ∧ (thresholdMask m).width = m.width
    ∧ (thresholdMask m).height = m.height := by
  refine ⟨rfl, ?_, rfl, rfl⟩
  by_cases h : m.pixel x y > 10 <;> simp [thresholdMask, thresholdPx, h]

/-- C4: the compositor is a total pointwise blend with the mask intensity
as weight, all four channels (alpha included) treated alike: mask 255
selects the fabric-layer pixel, mask 0 the garment pixel, intermediate
values the rounded linear blend; no error condition exists. -/
theorem compositor_pixel_blend (im1 im2 : Image) (mask : GrayImage) (x y : ℕ) :
    (compositeImg im1 im2 mask).pixel x y =
        blendPx (im1.pixel x y) (im2.pixel x y) (mask.pixel x y)
    ∧ (mask.pixel x y = 255 → (compositeImg im1 im2 mask).pixel x y = im1.pixel x y)
    ∧ (mask.pixel x y = 0 → (compositeImg im1 im2 mask).pixel x y = im2.pixel x y)
    ∧ (compositeImg im1 im2 mask).width = im1.width
    ∧ (compositeImg im1 im2 mask).height = im1.height := by
  refine ⟨rfl, ?_, ?_, rfl, rfl⟩
  · intro h
    show blendPx _ _ _ = _
    rw [h, blendPx_255]
  · intro h
    show blendPx _ _ _ = _
    rw [h, blendPx_0]

theorem compositor_pixel_blend_witness :
    wMask.pixel 0 0 = 255 ∧
    (compositeImg wFabric wGarment wMask).pixel 0 0 = wFabric.pixel 0 0 :=
  ⟨rfl, (compositor_pixel_blend wFabric wGarment wMask 0 0).2.1 rfl⟩

/-- The dimension stage either succeeds or fails with `invalidDimension`. -/
theorem fitCenterDims_cases (W H fw fh : ℕ) (s : ℚ) :
    (∃ d, fitCenterDims W H fw fh s = .ok d) ∨
      fitCenterDims W H fw fh s = .error .invalidDimension := by
  unfold fitCenterDims
  by_cases h0 : H = 0 ∨ fh = 0
  · simp [h0]
  · simp only [h0, if_false]
    split
    · exact Or.inl ⟨_, rfl⟩
    · exact Or.inr rfl

/-- C5: with all three assets found and decoded, Fit-and-Center generation
fails with `invalidDimension` exactly when the mockup height is 0, the
fabric height is 0, or a zoomed size `floor(fit * scale)` is ≤ 0 (with the
scale the core uses, i.e. normalised); a non-positive scale itself is not a
failure: the core behaves as with scale 1. -/
theorem invalid_dimension_iff (ops : PILOps) (store : Store) (cfg : Dirs)
    (fr mn : String) (s : ℚ) (fp : String) (fi : Image) (mp : String)
    (mi : Image) (kp : String) (km : GrayImage)
    (hf : find_file store cfg.fabric_dir fr commonExts = some fp)
    (hfd : store.decodeRGBA fp = some fi)
    (hm : find_file store cfg.mockup_dir mn commonExts = some mp)
    (hmd : store.decodeRGBA mp = some mi)
    (hk : find_file store cfg.mask_dir (mn ++ "_mask") maskExts = some kp)
    (hkd : store.decodeL kp = some km) :
    (generate_core ops store cfg fr mn s = .error .invalidDimension ↔
      mi.height = 0 ∨ fi.height = 0 ∨
      ⌊((fitSize mi.width mi.height fi.width fi.height).1 : ℚ) * normalizeScale s⌋ ≤ 0 ∨
      ⌊((fitSize mi.width mi.height fi.width fi.height).2 : ℚ) * normalizeScale s⌋ ≤ 0)
    ∧ (s ≤ 0 →
        generate_core ops store cfg fr mn s = generate_core ops store cfg fr mn 1) := by
  constructor
  · rw [← fitCenterDims_error_iff mi.width mi.height fi.width fi.height s]
    rcases fitCenterDims_cases mi.width mi.height fi.width fi.height s with ⟨d, hd⟩ | hd
    · obtain ⟨sw, sh⟩ := d
      have hfl : fitCenterLayer ops fi mi.width mi.height s =
          .ok (pasteClip (newCanvas mi.width mi.height)
            (ops.resize .lanczos fi sw sh)
            (pasteOffsets mi.width mi.height sw sh).1
            (pasteOffsets mi.width mi.height sw sh).2) := by
        simp only [fitCenterLayer, hd]
      simp only [generate_core, hf, hfd, hm, hmd, hk, hkd, hfl]
      simp [hd]
    · have hfl : fitCenterLayer ops fi mi.width mi.height s =
          .error .invalidDimension := by
        simp only [fitCenterLayer, hd]
      simp only [generate_core, hf, hfd, hm, hmd, hk, hkd, hfl]
      simp [hd]
  · intro hs
    have h := fitCenterDims_scale_congr mi.width mi.height fi.width fi.height
      (normalizeScale_of_nonpos hs)
    simp only [generate_core, hf, hfd, hm, hmd, hk, hkd, fitCenterLayer, h]

theorem invalid_dimension_iff_witness :
    find_file wStore "fab" "f" commonExts = some "fab/f.jpg" ∧
    wStore.decodeRGBA "mock/g.jpg" = some wMockup0 ∧
    wMockup0.height = 0 ∧
    generate_core concreteOps wStore wDirs "f" "g" 1 = .error .invalidDimension :=
  ⟨rfl, rfl, rfl,
    (invalid_dimension_iff concreteOps wStore wDirs "f" "g" 1 "fab/f.jpg" wFabric
      "mock/g.jpg" wMockup0 "mask/g_mask.png" wMask rfl rfl rfl rfl rfl rfl).1.mpr
      (Or.inl rfl)⟩

/-- C6: the save-to-disk path writes an output file only on full success:
on any core failure `create_mockup` returns `None` with the filesystem
state unchanged; a returned path always comes from a successful core run
followed by a successful save to the deterministic output path; in
particular a missing mask file yields `None` and an untouched filesystem. -/
theorem no_output_on_core_failure (ops : PILOps) (store : Store) (cfg : Dirs)
    (fr mn : String) (s : ℚ) :
    ((∃ e, generate_core ops store cfg fr mn s = .error e) →
      create_mockup ops store cfg fr mn s = (none, store))
    ∧ (∀ p store', create_mockup ops store cfg fr mn s = (some p, store') →
        ∃ img, generate_core ops store cfg fr mn s = .ok img ∧
          p = outPath cfg fr mn ∧ ops.save store p img = some store')
    ∧ (find_file store cfg.mask_dir (mn ++ "_mask") maskExts = none →
        create_mockup ops store cfg fr mn s = (none, store)) := by
  refine ⟨?_, ?_, ?_⟩
  · rintro ⟨e, he⟩
    simp [create_mockup, he]
  · intro p store' h
    cases hc : generate_core ops store cfg fr mn s with
    | error e => simp [create_mockup, hc] at h
    | ok img =>
      cases hsv : ops.save store (outPath cfg fr mn) img with
      | none => simp [create_mockup, hc, hsv] at h
      | some st =>
        simp only [create_mockup, hc, hsv, Prod.mk.injEq, Option.some.injEq] at h
        obtain ⟨h1, h2⟩ := h
        subst h2
        subst h1
        exact ⟨img, rfl, rfl, hsv⟩
  · intro hmask
    obtain ⟨e, he⟩ := generate_core_mask_missing ops store cfg fr mn s hmask
    simp [create_mockup, he]

theorem no_output_on_core_failure_witness :
    find_file noMaskStore "mask" "g_mask" maskExts = none ∧
    create_mockup concreteOps noMaskStore wDirs "f" "g" 1 = (none, noMaskStore) :=
  ⟨rfl, (no_output_on_core_failure concreteOps noMaskStore wDirs "f" "g" 1).2.2 rfl⟩

/-- C8: the asset locator tries extensions in the fixed order
`[.jpg, .png, .jpeg, .webp]` for fabric/garment and `[.png, .jpg, .jpeg]`
for masks; for every directory and base name it returns the path of the
first extension in that order whose file exists, `None` when none exists,
and consults only file existence (no decodability validation). -/
theorem asset_locator_first_match :
    commonExts = [".jpg", ".png", ".jpeg", ".webp"] ∧
    maskExts = [".png", ".jpg", ".jpeg"] ∧
    (∀ (store : Store) (d r p : String) (exts : List String),
      find_file store d r exts = some p ↔
        ∃ i, ∃ h : i < exts.length,
          p = joinPath d (r ++ exts.get ⟨i, h⟩) ∧ store.found p = true ∧
          ∀ e ∈ exts.take i, store.found (joinPath d (r ++ e)) = false) ∧
    (∀ (store : Store) (d r : String) (exts : List String),
      find_file store d r exts = none ↔
        ∀ e ∈ exts, store.found (joinPath d (r ++ e)) = false) ∧
    (∀ (s₁ s₂ : Store) (d r : String) (exts : List String),
      s₁.found = s₂.found → find_file s₁ d r exts = find_file s₂ d r exts) :=
  ⟨rfl, rfl,
    fun store d r p exts => find_file_some_iff store d r exts p,
    fun store d r exts => find_file_none_iff store d r exts,
    fun s₁ s₂ d r exts h => find_file_found_congr s₁ s₂ h d r exts⟩

theorem asset_locator_first_match_witness :
    find_file wStore "fab" "f" commonExts = some "fab/f.jpg" :=
  (asset_locator_first_match.2.2.1 wStore "fab" "f" "fab/f.jpg" commonExts).mpr
    ⟨0, by decide, by decide, by decide, by simp⟩

/-- C9: the mask is resized (with the LANCZOS filter) to exactly the
mockup's dimensions iff its dimensions differ from the mockup's, and the
result always has the mockup's dimensions; in the pipeline this step is
applied to the already-thresholded mask and its output feeds the composite
directly, with no further correction. -/
theorem mask_resize_iff (ops : PILOps) (mask : GrayImage) (W H : ℕ) :
    ((W, H) = (mask.width, mask.height) → finalMask ops mask W H = mask)
    ∧ ((W, H) ≠ (mask.width, mask.height) →
        finalMask ops mask W H = ops.resizeL .lanczos mask W H)
    ∧ (finalMask ops mask W H).width = W
    ∧ (finalMask ops mask W H).height = H
    ∧ (∀ (store : Store) (cfg : Dirs) (fr mn : String) (s : ℚ)
        (kp : String) (km : GrayImage) (img : Image),
        find_file store cfg.mask_dir (mn ++ "_mask") maskExts = some kp →
        store.decodeL kp = some km →
        generate_core ops store cfg fr mn s = .ok img →
        ∃ fabric_img mockup_img fl,
          fitCenterLayer ops fabric_img mockup_img.width mockup_img.height s = .ok fl ∧
          img = compositeImg fl mockup_img
            (finalMask ops (thresholdMask km) mockup_img.width mockup_img.height)) := by
  refine ⟨?_, ?_, ?_, ?_, ?_⟩
  · intro h
    simp [finalMask, h]
  · intro h
    simp [finalMask, h]
  · by_cases h : (W, H) = (mask.width, mask.height)
    · simp [finalMask, h, (Prod.mk.injEq .. ▸ h : W = mask.width ∧ H = mask.height).1.symm]
    · simp [finalMask, h, ops.resizeL_width]
  · by_cases h : (W, H) = (mask.width, mask.height)
    · simp [finalMask, h, (Prod.mk.injEq .. ▸ h : W = mask.width ∧ H = mask.height).2.symm]
    · simp [finalMask, h, ops.resizeL_height]
  · intro store cfg fr mn s kp km img hk hkd h
    obtain ⟨fp, fabric_img, mp, mockup_img, kp', mask_raw, fl,
      _, _, _, _, h5, h6, h7, h8⟩ := generate_core_ok ops store cfg fr mn s img h
    rw [hk] at h5
    injection h5 with h5
    rw [← h5, hkd] at h6
    injection h6 with h6
    exact ⟨fabric_img, mockup_img, fl, h7, h6 ▸ h8⟩

theorem mask_resize_iff_witness :
    ((1, 1) : ℕ × ℕ) = (wMask.width, wMask.height) ∧
    finalMask concreteOps wMask 1 1 = wMask :=
  ⟨rfl, (mask_resize_iff concreteOps wMask 1 1).1 rfl⟩

/-- C10: every failure of the public generation operations is reported by
returning `None` (the image entrypoint is exactly the core result as an
`Option`; the save path is `None` iff the core failed or the save failed),
success returns `Some`, and two calls failing with different error kinds
return the same value, so the kinds are indistinguishable from the returned
value. -/
theorem failures_return_none (ops : PILOps) (store : Store) (cfg : Dirs)
    (fr mn : String) (s : ℚ) (store₂ : Store) (fr₂ mn₂ : String) (s₂ : ℚ) :
    generate_mockup_image_object ops store cfg fr mn s =
        (generate_core ops store cfg fr mn s).toOption
    ∧ ((create_mockup ops store cfg fr mn s).1 = none ↔
        (∃ e, generate_core ops store cfg fr mn s = .error e) ∨
        (∃ img, generate_core ops store cfg fr mn s = .ok img ∧
          ops.save store (outPath cfg fr mn) img = none))
    ∧ (∀ img, generate_core ops store cfg fr mn s = .ok img →
        generate_mockup_image_object ops store cfg fr mn s = some img)
    ∧ (∀ e₁ e₂, generate_core ops store cfg fr mn s = .error e₁ →
        generate_core ops store₂ cfg fr₂ mn₂ s₂ = .error e₂ →
        generate_mockup_image_object ops store cfg fr mn s =
          generate_mockup_image_object ops store₂ cfg fr₂ mn₂ s₂ ∧
        (create_mockup ops store cfg fr mn s).1 =
          (create_mockup ops store₂ cfg fr₂ mn₂ s₂).1) := by
  refine ⟨?_, ?_, ?_, ?_⟩
  · cases h : generate_core ops store cfg fr mn s <;>
      simp [generate_mockup_image_object, h, Except.toOption]
  · cases h : generate_core ops store cfg fr mn s with
    | error e => simp [create_mockup, h]
    | ok img =>
      cases hsv : ops.save store (outPath cfg fr mn) img with
      | none => simp [create_mockup, h, hsv]
      | some st => simp [create_mockup, h, hsv]
  · intro img h
    simp [generate_mockup_image_object, h]
  · intro e₁ e₂ h₁ h₂
    constructor
    · simp [generate_mockup_image_object, h₁, h₂]
    · simp [create_mockup, h₁, h₂]

theorem failures_return_none_witness :
    generate_core concreteOps emptyStore wDirs "f" "g" 1 = .error .fabricNotFound ∧
    generate_core concreteOps fabricOnlyStore wDirs "f" "g" 1 = .error .mockupNotFound ∧
    generate_mockup_image_object concreteOps emptyStore wDirs "f" "g" 1 =
      generate_mockup_image_object concreteOps fabricOnlyStore wDirs "f" "g" 1 :=
  ⟨rfl, rfl,
    ((failures_return_none concreteOps emptyStore wDirs "f" "g" 1
        fabricOnlyStore "f" "g" 1).2.2.2 .fabricNotFound .mockupNotFound rfl rfl).1⟩

/-- The core on the `c7` assets succeeds with `c7Img`. -/
theorem c7_core_ok :
    generate_core concreteOps c7Store wDirs "f" "g" 1 = .ok c7Img := by
  have hf : find_file c7Store wDirs.fabric_dir "f" commonExts = some "fab/f.jpg" := rfl
  have hfd : c7Store.decodeRGBA "fab/f.jpg" = some wFabric := rfl
  have hm : find_file c7Store wDirs.mockup_dir "g" commonExts = some "mock/g.jpg" := rfl
  have hmd : c7Store.decodeRGBA "mock/g.jpg" = some c7Garment := rfl
  have hk : find_file c7Store wDirs.mask_dir ("g" ++ "_mask") maskExts =
      some "mask/g_mask.png" := rfl
  have hkd : c7Store.decodeL "mask/g_mask.png" = some c7MaskRaw := rfl
  have h1 : fitSize 2 1 1 1 = (1, 1) := by
    unfold fitSize
    norm_num
  have hd : fitCenterDims 2 1 wFabric.width wFabric.height 1 = .ok (1, 1) := by
    show fitCenterDims 2 1 1 1 1 = .ok (1, 1)
    simp only [fitCenterDims, h1, normalizeScale]
    norm_num
  have hfl : fitCenterLayer concreteOps wFabric c7Garment.width c7Garment.height 1 =
      .ok c7Layer := by
    show fitCenterLayer concreteOps wFabric 2 1 1 = .ok c7Layer
    simp only [fitCenterLayer, hd]
    rfl
  simp only [generate_core, hf, hfd, hm, hmd, hk, hkd, hfl]
  rfl

/-- C7 (amended): the generation entrypoint of `src/mockup_library.py`
takes only a fabric reference, a mockup name and a scale — no mode
parameter — and every image it produces, for every argument value, is
composited from the Fit-and-Center fabric layer; the Scale-and-Tile
strategy is a separate code path not reachable from this entrypoint. -/
theorem placement_always_fit_center (ops : PILOps) (store : Store) (cfg : Dirs)
    (fr mn : String) (s : ℚ) (img : Image)
    (h : generate_core ops store cfg fr mn s = .ok img) :
    generate_mockup_image_object ops store cfg fr mn s = some img ∧
    ∃ fabric_img mockup_img mask_raw fl,
      fitCenterLayer ops fabric_img mockup_img.width mockup_img.height s = .ok fl ∧
      img = compositeImg fl mockup_img
        (finalMask ops (thresholdMask mask_raw) mockup_img.width mockup_img.height) := by
  refine ⟨by simp [generate_mockup_image_object, h], ?_⟩
  obtain ⟨fp, fabric_img, mp, mockup_img, kp, mask_raw, fl, _, _, _, _, _, _, h7, h8⟩ :=
    generate_core_ok ops store cfg fr mn s img h
  exact ⟨fabric_img, mockup_img, mask_raw, fl, h7, h8⟩

theorem placement_always_fit_center_witness :
    generate_core concreteOps c7Store wDirs "f" "g" 1 = .ok c7Img ∧
    generate_mockup_image_object concreteOps c7Store wDirs "f" "g" 1 = some c7Img :=
  ⟨c7_core_ok,
    (placement_always_fit_center concreteOps c7Store wDirs "f" "g" 1 c7Img c7_core_ok).1⟩

/-- C7 counterexample: on the `c7` assets the call to the generation
entrypoint (whose arguments are exactly a fabric reference, a mockup name
and a scale) yields a transparent pixel at (1,0) — the centered 1×1 fabric
does not reach it — whereas the Scale-and-Tile placement of the very same
assets puts the red fabric there; so Scale-and-Tile is not selectable for
this call: no mode parameter exists on the entrypoint. -/
theorem mode_parameter_counterexample :
    (generate_mockup_image_object concreteOps c7Store wDirs "f" "g" 1).map
        (fun i => i.pixel 1 0) = some clearPx
    ∧ (∃ t, scaleTileLayer concreteOps wFabric 2 1 1 = .ok t ∧
        (compositeImg t c7Garment
          (finalMask concreteOps (thresholdMask c7MaskRaw) 2 1)).pixel 1 0 =
          ⟨255, 0, 0, 255⟩)
    ∧ clearPx ≠ (⟨255, 0, 0, 255⟩ : RGBA) := by
  refine ⟨?_, ⟨_, rfl, by decide⟩, by decide⟩
  simp only [generate_mockup_image_object, c7_core_ok, Option.map_some']
  decide

end SRX
